import Mathlib

/-!
Verification of the dialogue state machine of the connect-volunteers bot
(`src/main.rs`).  The Rust handlers are embedded as pure Lean functions that
return the ordered list of side effects they perform (state persistence,
outbound replies, ledger appends); the external ledger call outcome is a
Boolean parameter, since a failed append aborts the Rust handler via `?`.
-/

namespace ConnectVolunteersBot

/-- Embeds the Rust `HelpKind` enum: the five request categories. -/
inductive HelpKind
  | ProvidingDriver
  | ProvidingUsefulContact
  | ProvidingCollectingHumanitarianHelp
  | NeedEvacuation
  | NeedHumanitarianHelp
deriving DecidableEq

/-- Embeds the Rust `Contact` struct, fields in declaration order. -/
structure Contact where
  full_name : Option String
  address : Option String
  phone_numbers : Option String
  comments : Option String
deriving DecidableEq

/-- Embeds the Rust `State` enum (the dialogue state). -/
inductive State
  | Start
  | AwaitingKindOfHelpProviding
  | AwaitingKindOfHelpWanted
  | AwaitingContactInformation (help_kind : HelpKind) (contact : Option Contact)
deriving DecidableEq

/-- Reply markup attached to an outbound message: absent, a reply keyboard
(`KeyboardMarkup`, rows of button labels), or `KeyboardRemove`. -/
inductive Markup
  | none
  | keyboard (rows : List (List String))
  | remove
deriving DecidableEq

/-- One side effect performed by a handler, in execution order:
persisting the dialogue state (`dialogue.update`), sending a reply
(`bot.send_message`), or appending to the ledger (`Contact::save`). -/
inductive Effect
  | persist (s : State)
  | reply (text : String) (markup : Markup)
  | ledgerAppend (help_kind : HelpKind) (contact : Contact)
deriving DecidableEq

/-- An inbound Telegram message, reduced to the parts the handlers read:
whether the chat is private and the optional text payload. -/
structure Msg where
  isPrivate : Bool
  text : Option String
deriving DecidableEq

def canHelpToken : String := "Я можу допомогти"

def needHelpToken : String := "Я потребую допомоги"

def driverToken : String := "Я водій з власним авто"

def usefulContactsToken : String := "Корисні контакти"

def collectingToken : String := "Можу збирати гуманітарну чи фінансову допомогу"

def evacuationToken : String := "Евакуація"

def needHumanitarianToken : String := "Потрібна гуманітарна допомога"

def affirmativeToken : String := "Так, відправити інформацію волонтерам"

def negativeToken : String := "Ні, почати спочатку"

def startKeyboard : List (List String) := [[canHelpToken, needHelpToken]]

def provideKeyboard : List (List String) :=
  [[driverToken, collectingToken, usefulContactsToken]]

def wantedKeyboard : List (List String) := [[evacuationToken, needHumanitarianToken]]

def confirmKeyboard : List (List String) := [[affirmativeToken, negativeToken]]

def startRePromptText : String := "Оберіть \"Я можу допомогти\" чи \"Я потребую допомоги\""

def provideMenuText : String := "Наразі в нас є можливість координувати водіїв, що допомогають з евакуацією, надавати гуманітарну допомогу, та ми завжди відкриті до корисних контактів. Оберіть один з варіантів."

def wantedMenuText : String := "Наразі ми координуємо запити на евакуацію та гуманітарну допомогу."

def namePromptText : String := "Ваше ПІБ? (призвіще, імʼя, побатькові)"

def phonePromptText : String := "Контактні номери телефону?"

def addressPromptText : String := "Адреса?"

def commentPromptText : String := "Додатковий коментар? (якшо нема, відправте повідомлення з текстом \"-\")"

/-- The confirmation summary built by the fourth match arm of
`handle_awaiting_contact_information` (the Rust `format!` string). -/
def confirmationText (full_name phone_numbers address comments : String) : String :=
  "Ось таку інформацію ми зібрали:\nПІБ: " ++ full_name ++
  "\nКонтактні номери телефону: " ++ phone_numbers ++
  "\nАдреса: " ++ address ++ "\nКоментар: " ++ comments ++
  "\n\nВи бажаєте відправити цей запит волонтерам?"

def confirmRePromptText : String := "Ви бажаєте відправити запит волонтерам? (відправте лише \"Так, відправити інформацію волонтерам\" або \"Ні, почати спочатку\""

def thanksText : String := "Дякуємо! Вашу інформацію відправлено волонтерам.\n\nЧекайте коли з вами звʼяжуться. Також можете надіслати іншу заявку."

def cancelText : String := "Добре, вашу заявку скасовано. Можете почати знову."

/-- Embeds `handle_start`: ignores non-private chats entirely, recognizes the
two top-level tokens, and re-prompts (with the start keyboard) on anything
else, including a message with no text. -/
def handle_start (msg : Msg) : List Effect :=
  if msg.isPrivate = false then
    []
  else
    match msg.text with
    | some t =>
      if t = canHelpToken then
        [Effect.persist State.AwaitingKindOfHelpProviding,
         Effect.reply provideMenuText (Markup.keyboard provideKeyboard)]
      else if t = needHelpToken then
        [Effect.persist State.AwaitingKindOfHelpWanted,
         Effect.reply wantedMenuText (Markup.keyboard wantedKeyboard)]
      else
        [Effect.reply startRePromptText (Markup.keyboard startKeyboard)]
    | none => [Effect.reply startRePromptText (Markup.keyboard startKeyboard)]

/-- Embeds `handle_awaiting_kind_of_help_providing`: recognizes the three
offering-category tokens, otherwise re-sends the category menu. -/
def handle_awaiting_kind_of_help_providing (msg : Msg) : List Effect :=
  match msg.text with
  | some t =>
    if t = driverToken then
      [Effect.persist (State.AwaitingContactInformation HelpKind.ProvidingDriver none),
       Effect.reply namePromptText Markup.remove]
    else if t = usefulContactsToken then
      [Effect.persist (State.AwaitingContactInformation HelpKind.ProvidingUsefulContact none),
       Effect.reply namePromptText Markup.remove]
    else if t = collectingToken then
      [Effect.persist (State.AwaitingContactInformation HelpKind.ProvidingCollectingHumanitarianHelp none),
       Effect.reply namePromptText Markup.remove]
    else
      [Effect.reply provideMenuText (Markup.keyboard provideKeyboard)]
  | none => [Effect.reply provideMenuText (Markup.keyboard provideKeyboard)]

/-- Embeds `handle_awaitig_kind_of_help_wanted` (name kept from the source):
recognizes the two requesting-category tokens, otherwise re-sends the menu. -/
def handle_awaitig_kind_of_help_wanted (msg : Msg) : List Effect :=
  match msg.text with
  | some t =>
    if t = evacuationToken then
      [Effect.persist (State.AwaitingContactInformation HelpKind.NeedEvacuation none),
       Effect.reply namePromptText Markup.remove]
    else if t = needHumanitarianToken then
      [Effect.persist (State.AwaitingContactInformation HelpKind.NeedHumanitarianHelp none),
       Effect.reply namePromptText Markup.remove]
    else
      [Effect.reply wantedMenuText (Markup.keyboard wantedKeyboard)]
  | none => [Effect.reply wantedMenuText (Markup.keyboard wantedKeyboard)]

/-- Embeds `handle_awaiting_contact_information`.  The Rust match arms are
kept in source order (Rust matches are first-match, as is this Lean match).
The `ledgerOk` flag models the result of `Contact::save`; on failure the `?`
operator aborts the handler right after the ledger call, so neither the
state update nor the acknowledgment reply happens. -/
def handle_awaiting_contact_information (help_kind : HelpKind)
    (contact : Option Contact) (msg : Msg) (ledgerOk : Bool) : List Effect :=
  match msg.text with
  | none => []
  | some msg_text =>
    match contact with
    | none =>
      [Effect.persist (State.AwaitingContactInformation help_kind
          (some ⟨some msg_text, none, none, none⟩)),
       Effect.reply phonePromptText Markup.none]
    | some ⟨fn, addr, none, cm⟩ =>
      [Effect.persist (State.AwaitingContactInformation help_kind
          (some ⟨fn, addr, some msg_text, cm⟩)),
       Effect.reply addressPromptText Markup.none]
    | some ⟨fn, none, some pn, cm⟩ =>
      [Effect.persist (State.AwaitingContactInformation help_kind
          (some ⟨fn, some msg_text, some pn, cm⟩)),
       Effect.reply commentPromptText Markup.none]
    | some ⟨some fn, some addr, some pn, none⟩ =>
      [Effect.persist (State.AwaitingContactInformation help_kind
          (some ⟨some fn, some addr, some pn, some msg_text⟩)),
       Effect.reply (confirmationText fn pn addr msg_text) (Markup.keyboard confirmKeyboard)]
    | some ⟨some fn, some addr, some pn, some cm⟩ =>
      if msg_text = affirmativeToken then
        if ledgerOk then
          [Effect.ledgerAppend help_kind ⟨some fn, some addr, some pn, some cm⟩,
           Effect.persist State.Start,
           Effect.reply thanksText (Markup.keyboard startKeyboard)]
        else
          [Effect.ledgerAppend help_kind ⟨some fn, some addr, some pn, some cm⟩]
      else if msg_text = negativeToken then
        [Effect.persist State.Start,
         Effect.reply cancelText (Markup.keyboard startKeyboard)]
      else
        [Effect.reply confirmRePromptText Markup.none]
    | some ⟨none, some _, some _, _⟩ => []

/-- Dispatches an inbound message to the handler of the current dialogue
state, as the teloxide `dispatch_by::<State>` wiring does. -/
def handleEvent : State → Msg → Bool → List Effect
  | State.Start, msg, _ => handle_start msg
  | State.AwaitingKindOfHelpProviding, msg, _ => handle_awaiting_kind_of_help_providing msg
  | State.AwaitingKindOfHelpWanted, msg, _ => handle_awaitig_kind_of_help_wanted msg
  | State.AwaitingContactInformation hk c, msg, ok =>
      handle_awaiting_contact_information hk c msg ok

/-- The state written by the first `dialogue.update` of an effect trace
(every handler execution path performs at most one update). -/
def persistedState : List Effect → Option State
  | [] => none
  | Effect.persist s :: _ => some s
  | _ :: rest => persistedState rest

/-- The dialogue state stored after processing one event: the persisted
state if the handler updated it, otherwise the unchanged previous state. -/
def nextState (s : State) (msg : Msg) (ledgerOk : Bool) : State :=
  (persistedState (handleEvent s msg ledgerOk)).getD s

/-- Whether an effect trace contains a ledger append (a commit action). -/
def commits : List Effect → Bool
  | [] => false
  | Effect.ledgerAppend _ _ :: _ => true
  | _ :: rest => commits rest

/-- The replies of an effect trace, in order, with their markup. -/
def replies : List Effect → List (String × Markup)
  | [] => []
  | Effect.reply t m :: rest => (t, m) :: replies rest
  | _ :: rest => replies rest

/-- Whether the populated fields of an optional record form a prefix of the
ordered field list (full name, phone numbers, address, comment). -/
def populatedOk : Option Contact → Bool
  | none => true
  | some ⟨some _, none, none, none⟩ => true
  | some ⟨some _, none, some _, none⟩ => true
  | some ⟨some _, some _, some _, none⟩ => true
  | some ⟨some _, some _, some _, some _⟩ => true
  | some _ => false

/-- The prefix invariant lifted to dialogue states: it constrains only the
record component of `AwaitingContactInformation`. -/
def stateInv : State → Bool
  | State.AwaitingContactInformation _ c => populatedOk c
  | _ => true

/-- States reachable from the initial `Start` state by processing any
sequence of inbound messages with any ledger outcomes. -/
inductive Reachable : State → Prop
  | start : Reachable State.Start
  | step (s : State) (msg : Msg) (ok : Bool) :
      Reachable s → Reachable (nextState s msg ok)

/-- Checks that no ledger append occurs before a state persist in a trace;
the flag records whether a persist has been seen so far. -/
def checkPersistFirst : Bool → List Effect → Bool
  | _, [] => true
  | _, Effect.persist _ :: rest => checkPersistFirst true rest
  | seen, Effect.ledgerAppend _ _ :: rest => seen && checkPersistFirst seen rest
  | seen, _ :: rest => checkPersistFirst seen rest

/-- Phase rank of an effect in the order the handlers actually emit them:
ledger appends first, then the state persist, then replies. -/
def effRank : Effect → Nat
  | Effect.ledgerAppend _ _ => 0
  | Effect.persist _ => 1
  | Effect.reply _ _ => 2

/-- Whether the effects of a trace appear in nondecreasing phase rank. -/
def ranksMonotone : List Effect → Bool
  | [] => true
  | [_] => true
  | a :: b :: rest => decide (effRank a ≤ effRank b) && ranksMonotone (b :: rest)

/-- Embeds the spreadsheet-id table of `Contact::save`: the build-time map
from category to destination spreadsheet. -/
def spreadsheetId : HelpKind → String
  | HelpKind.ProvidingDriver => "117bcR8cksBSNUFNP51AAdr9pNMlJsFhwXL0NcbtW99A"
  | HelpKind.ProvidingUsefulContact => "1K69NNDU2YnHnI9QSPO9FcUgjFZw70uPjncKNYTTWKHM"
  | HelpKind.ProvidingCollectingHumanitarianHelp => "1lfBO5dLNDW_ymL2aySJwtOqRAAttGaWp3QFPWYL5JlI"
  | HelpKind.NeedEvacuation => "1as4OGhZLULiQFqjgbHqnbed2xbiA4fCBjyYRbXPzHCU"
  | HelpKind.NeedHumanitarianHelp => "1MM-8rxEcoD0GGqdTmudgchqpLIcaTygTN1x95nNzpJE"

/-- Embeds `Contact::save` as its pure content: given the row timestamp, it
yields the destination spreadsheet and the appended rows when all four
fields are set, and fails (`anyhow::bail!`) otherwise. -/
def Contact.save (c : Contact) (help_kind : HelpKind) (timestamp : String) :
    Option (String × List (List String)) :=
  match c with
  | ⟨some full_name, some address, some phone_numbers, some comments⟩ =>
      some (spreadsheetId help_kind,
        [[full_name, phone_numbers, address, comments, timestamp]])
  | _ => none

/-- Whether a state is `AwaitingContactInformation` with all four record
fields set (the confirmation step). -/
def fullContactState : State → Bool
  | State.AwaitingContactInformation _ (some ⟨some _, some _, some _, some _⟩) => true
  | _ => false

/-- Whether a state dispatches on a token vocabulary: `Start`, the two
category-selection states, and the confirmation step. -/
def tokenState : State → Bool
  | State.Start => true
  | State.AwaitingKindOfHelpProviding => true
  | State.AwaitingKindOfHelpWanted => true
  | State.AwaitingContactInformation _ (some ⟨some _, some _, some _, some _⟩) => true
  | State.AwaitingContactInformation _ _ => false

/-- The tokens recognized in each token-dispatching state. -/
def tokenVocab : State → List String
  | State.Start => [canHelpToken, needHelpToken]
  | State.AwaitingKindOfHelpProviding => [driverToken, usefulContactsToken, collectingToken]
  | State.AwaitingKindOfHelpWanted => [evacuationToken, needHumanitarianToken]
  | State.AwaitingContactInformation _ _ => [affirmativeToken, negativeToken]

/-- The reply each token-dispatching state sends on unrecognized input. -/
def rePromptOf : State → List (String × Markup)
  | State.Start => [(startRePromptText, Markup.keyboard startKeyboard)]
  | State.AwaitingKindOfHelpProviding => [(provideMenuText, Markup.keyboard provideKeyboard)]
  | State.AwaitingKindOfHelpWanted => [(wantedMenuText, Markup.keyboard wantedKeyboard)]
  | State.AwaitingContactInformation _ _ => [(confirmRePromptText, Markup.none)]

/-- Claim C1: a commit action (ledger append) is produced if and only if the
state is `AwaitingContactInformation` with all four record fields set (the
confirmation step) and the inbound text is exactly the affirmative token. -/
theorem C1_commit_iff (s : State) (msg : Msg) (ok : Bool) :
    commits (handleEvent s msg ok) = true ↔
      (fullContactState s = true ∧ msg.text = some affirmativeToken) := by
  obtain ⟨b, t⟩ := msg
  cases s with
  | Start =>
    rcases t with _ | t <;> cases b <;>
      simp [handleEvent, handle_start, commits, fullContactState] <;>
      split_ifs <;> simp [commits]
  | AwaitingKindOfHelpProviding =>
    rcases t with _ | t <;>
      simp [handleEvent, handle_awaiting_kind_of_help_providing, commits, fullContactState] <;>
      split_ifs <;> simp [commits]
  | AwaitingKindOfHelpWanted =>
    rcases t with _ | t <;>
      simp [handleEvent, handle_awaitig_kind_of_help_wanted, commits, fullContactState] <;>
      split_ifs <;> simp [commits]
  | AwaitingContactInformation hk c =>
    rcases t with _ | t
    · simp [handleEvent, handle_awaiting_contact_information, commits, fullContactState]
    · rcases c with _ | ⟨_ | fn, _ | addr, _ | pn, _ | cm⟩ <;>
        simp [handleEvent, handle_awaiting_contact_information, commits, fullContactState] <;>
        split_ifs <;> simp_all [commits]

/-- Counterexample to claim C2: at the confirmation step, the affirmative
token with a failing ledger append does NOT reset the state to `Start` — the
`?` on `contact.save` aborts the handler before `dialogue.update`. -/
theorem C2_counterexample :
    nextState (State.AwaitingContactInformation HelpKind.ProvidingDriver
        (some ⟨some "n", some "a", some "p", some "c"⟩))
      ⟨true, some affirmativeToken⟩ false
      ≠ State.Start := by decide

/-- Claim C2 amended: after a confirmation-step event, the persisted state is
`Start` on the negative token and on the affirmative token with a successful
ledger append; when the affirmative ledger append fails, the state is left
unchanged at the confirmation step. -/
theorem C2_amended_reset (hk : HelpKind) (fn addr pn cm : String) (b ok : Bool)
    (t : String) (h : t = affirmativeToken ∨ t = negativeToken) :
    nextState (State.AwaitingContactInformation hk
        (some ⟨some fn, some addr, some pn, some cm⟩)) ⟨b, some t⟩ ok
      = if t = affirmativeToken ∧ ok = false
        then State.AwaitingContactInformation hk
          (some ⟨some fn, some addr, some pn, some cm⟩)
        else State.Start := by
  rcases h with h | h <;> subst h <;> cases ok <;>
    simp [nextState, handleEvent, handle_awaiting_contact_information,
      persistedState, affirmativeToken, negativeToken]

/-- Witness for C2 amended at a concrete confirmation state with a failing
ledger append. -/
theorem C2_amended_reset_witness :
    nextState (State.AwaitingContactInformation HelpKind.ProvidingDriver
        (some ⟨some "n", some "a", some "p", some "c"⟩))
      ⟨true, some affirmativeToken⟩ false
      = if affirmativeToken = affirmativeToken ∧ false = false
        then State.AwaitingContactInformation HelpKind.ProvidingDriver
          (some ⟨some "n", some "a", some "p", some "c"⟩)
        else State.Start :=
  C2_amended_reset HelpKind.ProvidingDriver "n" "a" "p" "c" true false
    affirmativeToken (Or.inl rfl)

/-- Preservation: one event step keeps the prefix invariant on states. -/
theorem stateInv_nextState (s : State) (msg : Msg) (ok : Bool)
    (h : stateInv s = true) : stateInv (nextState s msg ok) = true := by
  obtain ⟨b, t⟩ := msg
  cases s with
  | Start =>
    rcases t with _ | t <;> cases b <;>
      simp [nextState, handleEvent, handle_start, persistedState, stateInv, populatedOk] <;>
      split_ifs <;> simp [persistedState, stateInv, populatedOk]
  | AwaitingKindOfHelpProviding =>
    rcases t with _ | t <;>
      simp [nextState, handleEvent, handle_awaiting_kind_of_help_providing,
        persistedState, stateInv, populatedOk] <;>
      split_ifs <;> simp [persistedState, stateInv, populatedOk]
  | AwaitingKindOfHelpWanted =>
    rcases t with _ | t <;>
      simp [nextState, handleEvent, handle_awaitig_kind_of_help_wanted,
        persistedState, stateInv, populatedOk] <;>
      split_ifs <;> simp [persistedState, stateInv, populatedOk]
  | AwaitingContactInformation hk c =>
    rcases t with _ | t
    · simpa [nextState, handleEvent, handle_awaiting_contact_information,
        persistedState, stateInv] using h
    · rcases c with _ | ⟨_ | fn, _ | addr, _ | pn, _ | cm⟩ <;>
        simp_all [nextState, handleEvent, handle_awaiting_contact_information,
          persistedState, stateInv, populatedOk] <;>
        split_ifs <;> simp_all [persistedState, stateInv, populatedOk]

/-- Claim C3: every state reachable from `Start` satisfies the prefix
invariant — within `AwaitingContactInformation`, the populated record fields
are always an in-order prefix of (name, phone, address, comment). -/
theorem C3_reachable_prefix (s : State) (h : Reachable s) : stateInv s = true := by
  induction h with
  | start => rfl
  | step s' msg ok _ ih => exact stateInv_nextState s' msg ok ih

/-- Witness for C3 at the initial state. -/
theorem C3_reachable_prefix_witness : stateInv State.Start = true :=
  C3_reachable_prefix State.Start Reachable.start

/-- Counterexample to claim C4: on a successful commit the ledger append is
performed BEFORE the next state is persisted — the trace of the affirmative
confirmation event has a ledger append with no preceding persist. -/
theorem C4_counterexample :
    checkPersistFirst false
      (handleEvent (State.AwaitingContactInformation HelpKind.ProvidingUsefulContact
          (some ⟨some "n", some "a", some "p", some "c"⟩))
        ⟨true, some affirmativeToken⟩ true) = false := by decide

/-- Claim C4 amended: for every processed event the side effects occur in the
fixed order ledger append (if a commit was produced) first, then state
persistence, then the reply — the ledger write precedes the persist, which
precedes the reply. -/
theorem C4_amended_effect_order (s : State) (msg : Msg) (ok : Bool) :
    ranksMonotone (handleEvent s msg ok) = true := by
  obtain ⟨b, t⟩ := msg
  cases s with
  | Start =>
    rcases t with _ | t <;> cases b <;>
      simp [handleEvent, handle_start, ranksMonotone, effRank] <;>
      split_ifs <;> simp [ranksMonotone, effRank]
  | AwaitingKindOfHelpProviding =>
    rcases t with _ | t <;>
      simp [handleEvent, handle_awaiting_kind_of_help_providing, ranksMonotone, effRank] <;>
      split_ifs <;> simp [ranksMonotone, effRank]
  | AwaitingKindOfHelpWanted =>
    rcases t with _ | t <;>
      simp [handleEvent, handle_awaitig_kind_of_help_wanted, ranksMonotone, effRank] <;>
      split_ifs <;> simp [ranksMonotone, effRank]
  | AwaitingContactInformation hk c =>
    rcases t with _ | t
    · simp [handleEvent, handle_awaiting_contact_information, ranksMonotone]
    · rcases c with _ | ⟨_ | fn, _ | addr, _ | pn, _ | cm⟩ <;>
        simp [handleEvent, handle_awaiting_contact_information, ranksMonotone, effRank] <;>
        split_ifs <;> simp [ranksMonotone, effRank]

/-- Counterexample to claim C5: in the `Start` state a private message with
no text is not ignored — the handler sends the top-level re-prompt reply. -/
theorem C5_counterexample :
    replies (handleEvent State.Start ⟨true, none⟩ true) ≠ [] := by decide

/-- Claim C5 amended: an event with no text never changes the state, but it
is fully ignored (no reply) only in `AwaitingContactInformation` and in
`Start` for non-private chats; in the other cases the handler replies with
the current menu re-prompt. -/
theorem C5_amended_nontext (s : State) (b ok : Bool) :
    persistedState (handleEvent s ⟨b, none⟩ ok) = none ∧
    (handleEvent s ⟨b, none⟩ ok = [] ↔
      ((∃ hk c, s = State.AwaitingContactInformation hk c) ∨
        (s = State.Start ∧ b = false))) := by
  cases s <;> cases b <;>
    simp [handleEvent, handle_start, handle_awaiting_kind_of_help_providing,
      handle_awaitig_kind_of_help_wanted, handle_awaiting_contact_information,
      persistedState]

/-- Counterexample to claim C6: a malformed record (name unset, phone and
address set) is NOT reset to `Idle` — the catch-all arm only logs, so the
persisted state is unchanged and differs from `Start`. -/
theorem C6_counterexample :
    nextState (State.AwaitingContactInformation HelpKind.NeedEvacuation
        (some ⟨none, some "a", some "p", none⟩)) ⟨true, some "t"⟩ true
      = State.AwaitingContactInformation HelpKind.NeedEvacuation
        (some ⟨none, some "a", some "p", none⟩) ∧
    State.AwaitingContactInformation HelpKind.NeedEvacuation
        (some ⟨none, some "a", some "p", none⟩) ≠ State.Start := by decide

/-- Claim C6 amended: a malformed record that reaches the catch-all arm
(name unset while phone and address are set) is only logged: the handler
produces no effect at all — no reply, no persist — so the state is left
unchanged rather than reset to `Idle`.  (Malformed records with phone or
address unset instead fall into the ordinary field-capture arms.) -/
theorem C6_amended_ignore (hk : HelpKind) (addr pn : String) (cm : Option String)
    (b ok : Bool) (t : String) :
    handleEvent (State.AwaitingContactInformation hk (some ⟨none, some addr, some pn, cm⟩))
      ⟨b, some t⟩ ok = [] := by
  cases cm <;> rfl

/-- Counterexample to claim C7: at the confirmation step the re-prompt sent
on unrecognized input is NOT the step's own prompt and keyboard — entering
the step sends the record summary with the yes/no keyboard, while the
re-prompt is a different reminder text with no keyboard. -/
theorem C7_counterexample :
    nextState (State.AwaitingContactInformation HelpKind.ProvidingDriver
        (some ⟨some "n", some "a", some "p", none⟩)) ⟨true, some "c"⟩ true
      = State.AwaitingContactInformation HelpKind.ProvidingDriver
        (some ⟨some "n", some "a", some "p", some "c"⟩) ∧
    replies (handleEvent (State.AwaitingContactInformation HelpKind.ProvidingDriver
        (some ⟨some "n", some "a", some "p", some "c"⟩)) ⟨true, some "xyz"⟩ true)
      ≠ replies (handleEvent (State.AwaitingContactInformation HelpKind.ProvidingDriver
        (some ⟨some "n", some "a", some "p", none⟩)) ⟨true, some "c"⟩ true) := by
  decide

/-- Claim C7 amended: in every token-dispatching state an unrecognized text
leaves the state unchanged and sends that state's fixed re-prompt; for the
two category-selection states this equals the step's menu prompt and
keyboard, for `Start` it is the top-level menu, but for the confirmation
step it is a distinct reminder text without the yes/no keyboard. -/
theorem C7_amended_reprompt (s : State) (t : String) (ok : Bool)
    (hs : tokenState s = true) (ht : t ∉ tokenVocab s) :
    nextState s ⟨true, some t⟩ ok = s ∧
    replies (handleEvent s ⟨true, some t⟩ ok) = rePromptOf s := by
  cases s with
  | Start =>
    simp only [tokenVocab, List.mem_cons, List.not_mem_nil, not_or, or_false] at ht
    obtain ⟨h1, h2⟩ := ht
    simp [nextState, handleEvent, handle_start, persistedState, replies,
      rePromptOf, h1, h2]
  | AwaitingKindOfHelpProviding =>
    simp only [tokenVocab, List.mem_cons, List.not_mem_nil, not_or, or_false] at ht
    obtain ⟨h1, h2, h3⟩ := ht
    simp [nextState, handleEvent, handle_awaiting_kind_of_help_providing,
      persistedState, replies, rePromptOf, h1, h2, h3]
  | AwaitingKindOfHelpWanted =>
    simp only [tokenVocab, List.mem_cons, List.not_mem_nil, not_or, or_false] at ht
    obtain ⟨h1, h2⟩ := ht
    simp [nextState, handleEvent, handle_awaitig_kind_of_help_wanted,
      persistedState, replies, rePromptOf, h1, h2]
  | AwaitingContactInformation hk c =>
    simp only [tokenVocab, List.mem_cons, List.not_mem_nil, not_or, or_false] at ht
    obtain ⟨h1, h2⟩ := ht
    rcases c with _ | ⟨_ | fn, _ | addr, _ | pn, _ | cm⟩ <;>
      simp_all [tokenState, nextState, handleEvent,
        handle_awaiting_contact_information, persistedState, replies, rePromptOf]

/-- Witness for C7 amended: an unrecognized text in the `Start` state. -/
theorem C7_amended_reprompt_witness :
    nextState State.Start ⟨true, some "hello"⟩ true = State.Start ∧
    replies (handleEvent State.Start ⟨true, some "hello"⟩ true) = rePromptOf State.Start :=
  C7_amended_reprompt State.Start "hello" true (by decide) (by decide)

/-- Claim C8: every ledger append produced by the handlers carries a record
with all four fields set, and `Contact::save` writes exactly one row with
cells in the order name, phone numbers, address, comment, timestamp, to the
destination spreadsheet fixed per category by the build-time table. -/
theorem C8_ledger_row (s : State) (msg : Msg) (ok : Bool) (hk : HelpKind)
    (c : Contact) (ts : String)
    (h : Effect.ledgerAppend hk c ∈ handleEvent s msg ok) :
    ∃ fn addr pn cm, c = ⟨some fn, some addr, some pn, some cm⟩ ∧
      Contact.save c hk ts = some (spreadsheetId hk, [[fn, pn, addr, cm, ts]]) := by
  obtain ⟨b, t⟩ := msg
  cases s with
  | Start =>
    rcases t with _ | t <;> cases b <;>
      simp [handleEvent, handle_start] at h <;>
      split_ifs at h <;> simp_all
  | AwaitingKindOfHelpProviding =>
    rcases t with _ | t <;>
      simp [handleEvent, handle_awaiting_kind_of_help_providing] at h <;>
      split_ifs at h <;> simp_all
  | AwaitingKindOfHelpWanted =>
    rcases t with _ | t <;>
      simp [handleEvent, handle_awaitig_kind_of_help_wanted] at h <;>
      split_ifs at h <;> simp_all
  | AwaitingContactInformation hk0 c0 =>
    rcases t with _ | t
    · simp [handleEvent, handle_awaiting_contact_information] at h
    · rcases c0 with _ | ⟨_ | fn, _ | addr, _ | pn, _ | cm⟩ <;>
        simp [handleEvent, handle_awaiting_contact_information] at h <;>
        split_ifs at h <;> simp_all <;>
        obtain ⟨-, rfl⟩ := h <;>
        first
          | exact ⟨fn, addr, pn, cm, rfl, rfl⟩
          | exact ⟨fn, addr, pn, cm, ⟨rfl, rfl, rfl, rfl⟩, rfl⟩

/-- Witness for C8 at a concrete commit event. -/
theorem C8_ledger_row_witness :
    ∃ fn addr pn cm,
      (⟨some "n", some "a", some "p", some "c"⟩ : Contact)
        = ⟨some fn, some addr, some pn, some cm⟩ ∧
      Contact.save ⟨some "n", some "a", some "p", some "c"⟩
          HelpKind.NeedHumanitarianHelp "2022-03-01"
        = some (spreadsheetId HelpKind.NeedHumanitarianHelp,
            [[fn, pn, addr, cm, "2022-03-01"]]) :=
  C8_ledger_row
    (State.AwaitingContactInformation HelpKind.NeedHumanitarianHelp
      (some ⟨some "n", some "a", some "p", some "c"⟩))
    ⟨true, some affirmativeToken⟩ true HelpKind.NeedHumanitarianHelp
    ⟨some "n", some "a", some "p", some "c"⟩ "2022-03-01" (by decide)

/-- Claim C9: in the `Start` state a message from a non-private chat is
ignored entirely (no effect at all), and the other three handlers never read
the chat type — their effects do not depend on it. -/
theorem C9_private_check (msg : Msg) (ok : Bool) (s : State) (t : Option String)
    (b b' ok' : Bool) (hp : msg.isPrivate = false) (hs : s ≠ State.Start) :
    handleEvent State.Start msg ok = [] ∧
    handleEvent s ⟨b, t⟩ ok' = handleEvent s ⟨b', t⟩ ok' := by
  refine ⟨by simp [handleEvent, handle_start, hp], ?_⟩
  cases s with
  | Start => exact absurd rfl hs
  | AwaitingKindOfHelpProviding => rfl
  | AwaitingKindOfHelpWanted => rfl
  | AwaitingContactInformation hk c => rfl

/-- Witness for C9: a non-private message in `Start`, and chat-type
independence of the providing-category handler. -/
theorem C9_private_check_witness :
    handleEvent State.Start ⟨false, some "hi"⟩ true = [] ∧
    handleEvent State.AwaitingKindOfHelpProviding ⟨true, some "hi"⟩ true
      = handleEvent State.AwaitingKindOfHelpProviding ⟨false, some "hi"⟩ true :=
  C9_private_check ⟨false, some "hi"⟩ true State.AwaitingKindOfHelpProviding
    (some "hi") true false true rfl (by decide)

/-- Claim C10: whenever `handle_awaiting_contact_information` persists an
`AwaitingContactInformation` state (every field-capture transition does),
the persisted category equals the input category — field capture modifies
only the record component. -/
theorem C10_help_kind_frame (hk hk' : HelpKind) (c c' : Option Contact)
    (msg : Msg) (ok : Bool)
    (h : persistedState (handle_awaiting_contact_information hk c msg ok)
       = some (State.AwaitingContactInformation hk' c')) :
    hk' = hk := by
  obtain ⟨b, t⟩ := msg
  rcases t with _ | t
  · simp [handle_awaiting_contact_information, persistedState] at h
  · rcases c with _ | ⟨_ | fn, _ | addr, _ | pn, _ | cm⟩ <;>
      simp [handle_awaiting_contact_information, persistedState] at h <;>
      first
        | exact h.1.symm
        | (split_ifs at h <;> simp_all [persistedState])

/-- Witness for C10 at a concrete name-capture transition. -/
theorem C10_help_kind_frame_witness : HelpKind.NeedEvacuation = HelpKind.NeedEvacuation :=
  C10_help_kind_frame HelpKind.NeedEvacuation HelpKind.NeedEvacuation none
    (some ⟨some "John", none, none, none⟩) ⟨true, some "John"⟩ true (by decide)

end ConnectVolunteersBot
